import Mathlib

set_option maxRecDepth 40000

set_option linter.unusedVariables false

/-!
Verification development for the Celestica cycle-time dashboard (`src/app.py`).

The engine under specification is the function `procesar_celestica` together
with the module-level KPI block (`tiempo_total`, `piezas_totales`,
`ct_medio_global`, `capacidad`) and the column-role mapper `mapear_columnas`.
We embed them shallowly:

* a dataframe row becomes a `Row`; its timestamp cell is an `FCell`, either a
  raw (unparsed) cell or an already-coerced `Option Nat` (pandas `NaT` = `none`;
  timestamps are epoch seconds as natural numbers);
* `pd.to_datetime(..., errors='coerce')` becomes `parseFecha`; the modelling
  convention for the external parser (file parsing is out of scope of the
  engine) is that a raw cell code `c : Int` parses iff `0 ≤ c`;
* `dropna` + `sort_values` become `filterMap` + `List.insertionSort` on the
  parsed timestamp;
* the derived columns `Gap_Min`, `Nuevo_Bloque`, `Bloque_ID`, `Turno_Virtual`
  and `Tiempo_Real_Trabajado` are computed by the single left-to-right pass
  `procesarAux`, mirroring `diff().fillna(0)`, the `> umbral_descanso`
  comparison, `cumsum`, the hour-of-day bucketing and the `.loc` overwrite;
* minutes and all derived statistics are exact rationals (`ℚ`);
* the in-place write `df[c_fec] = pd.to_datetime(df[c_fec], ...)` on the
  caller's frame is modelled by explicit state passing:
  `procesar_celestica_full` returns the caller's frame after the call
  together with the engine's output.
-/

/-- A timestamp cell: either a raw (string-typed) cell as produced by the
`astype(str)` in `mapear_columnas`, or a cell already coerced by
`pd.to_datetime` (`parsed none` = `NaT`). Raw cells are coded by an integer;
the code parses iff it is non-negative. -/
inductive FCell where
  | raw (code : Int)
  | parsed (t : Option Nat)
deriving DecidableEq, Repr

/-- Embeds `pd.to_datetime(cell, errors='coerce')` for a single cell. -/
def parseFecha : FCell → Option Nat
  | .raw code => if 0 ≤ code then some code.toNat else none
  | .parsed t => t

/-- One row of the mapped dataframe handed to `procesar_celestica`:
the resolved `Producto`, `Familia`, `Fecha` and `Usuario` columns.
(The `Estacion` column is destructured by the code but never read, so it is
omitted from the embedding.) -/
structure Row where
  producto : String
  familia : String
  fecha : FCell
  usuario : String
deriving DecidableEq, Repr

/-- The shift name computed by `nombrar_turno` from the event's hour. -/
inductive TurnoName where
  | manana
  | tarde
  | noche
deriving DecidableEq, Repr

/-- Embeds the hour bucketing of `nombrar_turno`: `"Mañana" if 6 <= hora < 14
else "Tarde" if 14 <= hora < 22 else "Noche"`, with `hora = timestamp.hour`. -/
def turnoNameOf (t : Nat) : TurnoName :=
  let hora := t / 3600 % 24
  if 6 ≤ hora ∧ hora < 14 then .manana
  else if 14 ≤ hora ∧ hora < 22 then .tarde
  else .noche

/-- One row of the dataframe returned by `procesar_celestica`: the surviving
input columns plus every derived column.  `Turno_Virtual` is the f-string
`f"{turno} (Bloque {Bloque_ID})"`, embedded as the pair of its two
interpolated components. -/
structure ProcRow where
  producto : String
  familia : String
  usuario : String
  ts : Nat
  Gap_Min : ℚ
  Nuevo_Bloque : Bool
  Bloque_ID : Nat
  Turno_Virtual : TurnoName × Nat
  Tiempo_Real_Trabajado : ℚ
deriving DecidableEq, Repr

/-- The sort order of `sort_values(c_fec)`: ascending parsed timestamp. -/
def rTs (a b : Row × Nat) : Prop := a.2 ≤ b.2

instance : DecidableRel rTs := fun a b => inferInstanceAs (Decidable (a.2 ≤ b.2))

instance : IsTotal (Row × Nat) rTs := ⟨fun a b => Nat.le_total a.2 b.2⟩

instance : IsTrans (Row × Nat) rTs := ⟨fun _ _ _ => Nat.le_trans⟩

/-- Embeds `df.dropna(subset=[c_fec]).sort_values(c_fec)`: keep the rows
whose timestamp coerces, paired with the parsed value, sorted ascending. -/
def sortedParsed (rows : List Row) : List (Row × Nat) :=
  List.insertionSort rTs (rows.filterMap fun r => (parseFecha r.fecha).map fun t => (r, t))

/-- The single left-to-right pass over the sorted rows computing the derived
columns.  `prev` is the previous row's timestamp (`diff`), `bloque` the
running `cumsum` of `Nuevo_Bloque` before this row. -/
def procesarAux (umbral_descanso : ℚ) : Nat → Nat → List (Row × Nat) → List ProcRow
  | _, _, [] => []
  | prev, bloque, (r, t) :: rest =>
      let gap : ℚ := ((t : ℚ) - (prev : ℚ)) / 60
      let nb : Bool := decide (umbral_descanso < gap)
      let bl : Nat := bloque + (if nb then 1 else 0)
      let tr : ℚ := if umbral_descanso < gap then 0 else gap
      { producto := r.producto, familia := r.familia, usuario := r.usuario,
        ts := t, Gap_Min := gap, Nuevo_Bloque := nb, Bloque_ID := bl,
        Turno_Virtual := (turnoNameOf t, bl), Tiempo_Real_Trabajado := tr }
        :: procesarAux umbral_descanso t bl rest

/-- Embeds `procesar_celestica(df, cols, umbral_lote, umbral_descanso)`: cleaning
(coerce timestamps, drop `NaT`, sort), `Gap_Min = diff().fillna(0) / 60`
(the first surviving row's gap is filled with 0, obtained by seeding `prev`
with its own timestamp), `Nuevo_Bloque = Gap_Min > umbral_descanso`,
`Bloque_ID = cumsum`, `Turno_Virtual`, and
`Tiempo_Real_Trabajado = Gap_Min` overwritten to 0 where
`Gap_Min > umbral_descanso`.  `umbral_lote` is a parameter of the source
function and appears here with the same (unread) role. -/
def procesar_celestica (rows : List Row) (umbral_lote umbral_descanso : ℚ) :
    List ProcRow :=
  match sortedParsed rows with
  | [] => []
  | (r, t) :: rest => procesarAux umbral_descanso t 0 ((r, t) :: rest)

/-- The caller's dataframe after `procesar_celestica` returns: the in-place
assignment `df[c_fec] = pd.to_datetime(df[c_fec], errors='coerce')` has
overwritten the timestamp column of the caller-owned frame; `dropna`,
`sort_values` and every derived-column assignment happened on a copy. -/
def coerceFechas (rows : List Row) : List Row :=
  rows.map fun r => { r with fecha := .parsed (parseFecha r.fecha) }

/-- Embeds `procesar_celestica` with the caller's frame tracked by explicit
state passing: returns (caller frame after the call, engine output). -/
def procesar_celestica_full (rows : List Row) (umbral_lote umbral_descanso : ℚ) :
    List Row × List ProcRow :=
  (coerceFechas rows, procesar_celestica rows umbral_lote umbral_descanso)

/-- KPI block: `tiempo_total = df_final['Tiempo_Real_Trabajado'].sum()`. -/
def tiempo_total (out : List ProcRow) : ℚ :=
  (out.map fun r => r.Tiempo_Real_Trabajado).sum

/-- KPI block: `piezas_totales = len(df_final)`. -/
def piezas_totales (out : List ProcRow) : Nat := out.length

/-- KPI block: `ct_medio_global = tiempo_total / piezas_totales if
piezas_totales > 0 else 0` (minutes per unit). -/
def ct_medio_global (out : List ProcRow) : ℚ :=
  if 0 < piezas_totales out then tiempo_total out / (piezas_totales out : ℚ)
  else 0

/-- KPI block: `capacidad = (h_turno * 60) / ct_medio_global *
eficiencia_target if ct_medio_global > 0 else 0`. -/
def capacidad (out : List ProcRow) (h_turno eficiencia_target : ℚ) : ℚ :=
  if 0 < ct_medio_global out then
    h_turno * 60 / ct_medio_global out * eficiencia_target
  else 0

/-- Per-family/per-product statistics block: `df_final.groupby([c_fam,
c_prod]).agg(Piezas=..., Tiempo_Total=...)` plus `CT_Real = Tiempo_Total /
Piezas`, keyed by (familia, producto). -/
def groupStats (out : List ProcRow) :
    List ((String × String) × Nat × ℚ × ℚ) :=
  ((out.map fun r => (r.familia, r.producto)).dedup).map fun k =>
    let rows := out.filter fun r => (r.familia, r.producto) = k
    let tt := (rows.map fun r => r.Tiempo_Real_Trabajado).sum
    (k, rows.length, tt, tt / (rows.length : ℚ))

/-- The semantic roles of the specification's data model.  The source's
`mapear_columnas` resolves columns only to the first five; `unitId` is the
spec's deduplication role, listed so that its absence from the mapper is a
statable fact. -/
inductive Role where
  | producto
  | familia
  | estacion
  | fecha
  | usuario
  | unitId
deriving DecidableEq, Repr

/-- Python's `sub in s` substring test, via `splitOn`: a non-empty needle
occurs in `s` iff splitting on it yields more than one piece. -/
def strContains (s sub : String) : Bool := 1 < (s.splitOn sub).length

/-- The column-role mapping loop of `mapear_columnas` for one column name:
the `if/elif` keyword chain over the lowercased header. -/
def roleOf (c : String) : Option Role :=
  let cl := c.toLower
  if strContains cl "product" && strContains cl "id" then some .producto
  else if strContains cl "family" then some .familia
  else if strContains cl "station" || strContains cl "operation" then some .estacion
  else if strContains cl "date" || strContains cl "time" then some .fecha
  else if strContains cl "user" || strContains cl "operator" then some .usuario
  else none

/-- The user-visible outcome of the module-level block that runs on upload:
`load_data` failing gives the reading error, `mapear_columnas` failing gives
the column error, and otherwise the KPI block always renders its metrics
(piezas, ct, capacidad).  There is no other outcome in the source. -/
inductive Outcome where
  | errorLectura
  | errorColumnas
  | success (piezas : Nat) (ct : ℚ) (cap : ℚ)
deriving DecidableEq, Repr

/-- Whether an outcome carries a rendered KPI estimate. -/
def Outcome.isSuccess : Outcome → Bool
  | .success _ _ _ => true
  | _ => false

/-- The module-level flow: `if uploaded_file: df_raw = load_data(...)`;
`if df_raw is not None: ... if cols: <KPI block> else: st.error` — with the
ingestion and column-mapping collaborators abstracted to their outcomes
(`df_raw` as `Option (List Row)`, `cols` truthiness as `colsFound`). -/
def runApp (df_raw : Option (List Row)) (colsFound : Bool)
    (umbral_lote umbral_descanso h_turno eficiencia_target : ℚ) : Outcome :=
  match df_raw with
  | none => .errorLectura
  | some rows =>
      if colsFound then
        let out := procesar_celestica rows umbral_lote umbral_descanso
        .success (piezas_totales out) (ct_medio_global out)
          (capacidad out h_turno eficiencia_target)
      else .errorColumnas

/-- The specification's Fallback Mode estimate, stated from the spec's words
for comparison with the code: "divide total elapsed time (last timestamp −
first timestamp) by total unit count", expressed in minutes like
`ct_medio_global`. -/
def fallback_estimate_spec : List ProcRow → ℚ
  | [] => 0
  | g :: rest =>
      (((rest.getLastD g).ts : ℚ) - (g.ts : ℚ)) / 60 / ((g :: rest).length : ℚ)

/-- A convenience constructor for test datasets: one row with an
already-parsed timestamp `t` (seconds) and constant text columns. -/
def mkRow (t : Nat) : Row :=
  { producto := "P", familia := "F", fecha := .parsed (some t), usuario := "U" }

/-- The dataset of the spec's Scenario 3: 100 events 60 s apart except for a
single 3600 s (lunch) gap in the middle: 50 events at `60*i`, then 50 events
resuming at `6540 + 60*i` (the gap between `2940` and `6540` is 3600 s). -/
def c3data : List Row :=
  ((List.range 50).map fun i => mkRow (60 * i)) ++
    ((List.range 50).map fun i => mkRow (6540 + 60 * i))

/-- A dataset with one duplicated unit: identical identifying columns, the
second scan 2 seconds after the first. -/
def dupData : List Row :=
  [{ producto := "P1", familia := "F1", fecha := .parsed (some 0), usuario := "U1" },
   { producto := "P1", familia := "F1", fecha := .parsed (some 2), usuario := "U1" }]

/-! Helper lemmas about the pass `procesarAux` and the pipeline. -/

/-- Every output row's `Nuevo_Bloque` and `Tiempo_Real_Trabajado` are the
stated functions of its own `Gap_Min`. -/
lemma procesarAux_cond (ud : ℚ) :
    ∀ (l : List (Row × Nat)) (prev bl : Nat) (p : ProcRow),
      p ∈ procesarAux ud prev bl l →
      p.Nuevo_Bloque = decide (ud < p.Gap_Min) ∧
        p.Tiempo_Real_Trabajado = if ud < p.Gap_Min then 0 else p.Gap_Min
  | [], _, _, p, h => by simp [procesarAux] at h
  | (r, t) :: rest, prev, bl, p, h => by
      rw [procesarAux] at h
      rcases List.mem_cons.1 h with h | h
      · subst h; exact ⟨rfl, rfl⟩
      · exact procesarAux_cond ud rest t _ p h

/-- The output timestamps are exactly the input (sorted) timestamps. -/
lemma procesarAux_map_ts (ud : ℚ) :
    ∀ (l : List (Row × Nat)) (prev bl : Nat),
      (procesarAux ud prev bl l).map (fun p => p.ts) = l.map (fun q => q.2)
  | [], _, _ => rfl
  | (r, t) :: rest, prev, bl => by
      rw [procesarAux]
      simpa using procesarAux_map_ts ud rest t _

/-- Each output row's `Gap_Min` is the full minute delta from the previous
output row's timestamp (pandas `diff`): no division by any batch size. -/
lemma procesarAux_chain_gap (ud : ℚ) :
    ∀ (l : List (Row × Nat)) (prev bl : Nat),
      List.Chain' (fun a b : ProcRow => b.Gap_Min = ((b.ts : ℚ) - (a.ts : ℚ)) / 60)
        (procesarAux ud prev bl l)
  | [], _, _ => List.chain'_nil
  | (r, t) :: rest, prev, bl => by
      rw [procesarAux]
      refine List.chain'_cons'.2 ⟨?_, procesarAux_chain_gap ud rest t _⟩
      intro b hb
      cases rest with
      | nil => simp [procesarAux] at hb
      | cons a2 rest2 =>
          obtain ⟨r2, t2⟩ := a2
          rw [procesarAux] at hb
          simp only [List.head?_cons, Option.mem_def, Option.some.injEq] at hb
          subst hb
          rfl

/-- If the seed `prev` is at most the first timestamp and the timestamps are
ascending, every computed gap is non-negative. -/
lemma procesarAux_gap_nonneg (ud : ℚ) :
    ∀ (l : List (Row × Nat)) (prev bl : Nat),
      (∀ x ∈ l.head?, prev ≤ x.2) →
      List.Chain' (fun a b : Row × Nat => a.2 ≤ b.2) l →
      ∀ p ∈ procesarAux ud prev bl l, 0 ≤ p.Gap_Min
  | [], _, _, _, _, p, hp => by simp [procesarAux] at hp
  | (r, t) :: rest, prev, bl, h1, h2, p, hp => by
      rw [procesarAux] at hp
      rcases List.mem_cons.1 hp with h | h
      · subst h
        show (0 : ℚ) ≤ ((t : ℚ) - (prev : ℚ)) / 60
        have hpt : (prev : ℚ) ≤ (t : ℚ) := by
          exact_mod_cast h1 (r, t) rfl
        have h60 : (0 : ℚ) ≤ 60 := by norm_num
        exact div_nonneg (sub_nonneg.2 hpt) h60
      · refine procesarAux_gap_nonneg ud rest t _ ?_ (List.chain'_cons'.1 h2).2 p h
        intro x hx
        exact (List.chain'_cons'.1 h2).1 x hx

/-- The parsed-and-paired row list has as many entries as there are rows
whose timestamp parses. -/
lemma length_filterMap_parse :
    ∀ rows : List Row,
      (rows.filterMap fun r => (parseFecha r.fecha).map fun t => (r, t)).length =
        (rows.filter fun r => (parseFecha r.fecha).isSome).length
  | [] => rfl
  | a :: l => by
      cases h : parseFecha a.fecha <;>
        simp [List.filterMap_cons, List.filter_cons, h, length_filterMap_parse l]

/-- `sortedParsed` is sorted ascending by parsed timestamp. -/
lemma sortedParsed_sorted (rows : List Row) :
    List.Chain' (fun a b : Row × Nat => a.2 ≤ b.2) (sortedParsed rows) := by
  have h := List.sorted_insertionSort rTs
    (rows.filterMap fun r => (parseFecha r.fecha).map fun t => (r, t))
  exact List.Pairwise.chain' h

/-- Output length of `procesar_celestica` equals the number of rows with a
parseable timestamp: no row is deduplicated or otherwise dropped. -/
lemma procesar_length (rows : List Row) (ul ud : ℚ) :
    (procesar_celestica rows ul ud).length =
      (rows.filter fun r => (parseFecha r.fecha).isSome).length := by
  have hts : (procesar_celestica rows ul ud).map (fun p => p.ts) =
      (sortedParsed rows).map (fun q => q.2) := by
    rw [procesar_celestica]
    cases hsp : sortedParsed rows with
    | nil => simp
    | cons a rest =>
        obtain ⟨r, t⟩ := a
        exact procesarAux_map_ts ud ((r, t) :: rest) t 0
  have hlen : (procesar_celestica rows ul ud).length = (sortedParsed rows).length := by
    have := congrArg List.length hts
    simpa using this
  rw [hlen, sortedParsed, List.length_insertionSort, length_filterMap_parse]

/-- The gap-formula chain for the whole pipeline. -/
lemma procesar_chain_gap (rows : List Row) (ul ud : ℚ) :
    List.Chain' (fun a b : ProcRow => b.Gap_Min = ((b.ts : ℚ) - (a.ts : ℚ)) / 60)
      (procesar_celestica rows ul ud) := by
  rw [procesar_celestica]
  cases hsp : sortedParsed rows with
  | nil => exact List.chain'_nil
  | cons a rest =>
      obtain ⟨r, t⟩ := a
      exact procesarAux_chain_gap ud ((r, t) :: rest) t 0

/-- Gap non-negativity for the whole pipeline. -/
lemma procesar_gap_nonneg (rows : List Row) (ul ud : ℚ) :
    ∀ p ∈ procesar_celestica rows ul ud, 0 ≤ p.Gap_Min := by
  intro p hp
  rw [procesar_celestica] at hp
  rcases hsp : sortedParsed rows with _ | ⟨⟨r, t⟩, rest⟩
  · rw [hsp] at hp; simp at hp
  · rw [hsp] at hp
    have hsorted := sortedParsed_sorted rows
    rw [hsp] at hsorted
    refine procesarAux_gap_nonneg ud ((r, t) :: rest) t 0 ?_ hsorted p hp
    intro x hx
    simp only [List.head?_cons, Option.mem_def, Option.some.injEq] at hx
    subst hx
    exact le_refl t

/-- The row-level condition invariant for the whole pipeline. -/
lemma procesar_cond (rows : List Row) (ul ud : ℚ) :
    ∀ p ∈ procesar_celestica rows ul ud,
      p.Nuevo_Bloque = decide (ud < p.Gap_Min) ∧
        p.Tiempo_Real_Trabajado = if ud < p.Gap_Min then 0 else p.Gap_Min := by
  intro p hp
  rw [procesar_celestica] at hp
  rcases hsp : sortedParsed rows with _ | ⟨⟨r, t⟩, rest⟩
  · rw [hsp] at hp; simp at hp
  · rw [hsp] at hp
    exact procesarAux_cond ud ((r, t) :: rest) t 0 p hp

/-- The first output row's gap is filled with zero (`fillna(0)`). -/
lemma procesar_head_gap (rows : List Row) (ul ud : ℚ) (g : ProcRow)
    (h : (procesar_celestica rows ul ud).head? = some g) : g.Gap_Min = 0 := by
  rw [procesar_celestica] at h
  rcases hsp : sortedParsed rows with _ | ⟨⟨r, t⟩, rest⟩
  · rw [hsp] at h; simp at h
  · rw [hsp] at h
    simp only [procesarAux, List.head?_cons, Option.some.injEq] at h
    subst h
    show ((t : ℚ) - (t : ℚ)) / 60 = 0
    simp

/-- The output is ascending in `ts`. -/
lemma procesar_ts_chain (rows : List Row) (ul ud : ℚ) :
    List.Chain' (fun a b : ProcRow => a.ts ≤ b.ts) (procesar_celestica rows ul ud) := by
  have hts : (procesar_celestica rows ul ud).map (fun p => p.ts) =
      (sortedParsed rows).map (fun q => q.2) := by
    rw [procesar_celestica]
    cases hsp : sortedParsed rows with
    | nil => simp
    | cons a rest =>
        obtain ⟨r, t⟩ := a
        exact procesarAux_map_ts ud ((r, t) :: rest) t 0
  have h1 : List.Chain' (fun a b : Nat => a ≤ b)
      ((sortedParsed rows).map (fun q => q.2)) :=
    (List.chain'_map _).2 (sortedParsed_sorted rows)
  rw [← hts] at h1
  exact (List.chain'_map _).1 h1

/-- When every gap is zero, all output timestamps coincide. -/
lemma tsConstD :
    ∀ (l : List ProcRow) (d : ProcRow),
      List.Chain' (fun a b : ProcRow => b.Gap_Min = ((b.ts : ℚ) - (a.ts : ℚ)) / 60)
        (d :: l) →
      (∀ r ∈ d :: l, r.Gap_Min = 0) → (l.getLastD d).ts = d.ts
  | [], _, _, _ => rfl
  | b :: l, d, hc, hz => by
      have h1 : b.Gap_Min = ((b.ts : ℚ) - (d.ts : ℚ)) / 60 := (List.chain'_cons.1 hc).1
      have hb0 : b.Gap_Min = 0 := hz b (by simp)
      have hbd : b.ts = d.ts := by
        have hdiv : ((b.ts : ℚ) - (d.ts : ℚ)) / 60 = 0 := h1 ▸ hb0
        have hsub : ((b.ts : ℚ) - (d.ts : ℚ)) = 0 := by
          rcases div_eq_zero_iff.1 hdiv with h | h
          · exact h
          · norm_num at h
        exact_mod_cast sub_eq_zero.1 hsub
      have h2 := tsConstD l b (List.chain'_cons.1 hc).2
        (fun r hr => hz r (List.mem_cons_of_mem d hr))
      rw [List.getLastD_cons, h2, hbd]

/-! Claim theorems. -/

/-- C1 counterexample: for a burst of 5 events at identical timestamp 500 s
preceded by a 500 s gap from the prior event at 0 s, the engine does not
assign `imputed_unit_seconds = 500/5 = 100 s` (i.e. `Gap_Min = 5/3` min) to
every unit of that batch. -/
theorem C1_counterexample :
    ¬ (∀ r ∈ procesar_celestica
          [mkRow 0, mkRow 500, mkRow 500, mkRow 500, mkRow 500, mkRow 500] 5 45,
        r.ts = 500 → r.Gap_Min = 5/3) :=
  of_decide_eq_true (by with_unfolding_all rfl)

/-- C1 (amended): the engine performs no de-batching: every output row's
`Gap_Min` is the full minute delta from the previous row (pandas `diff`),
with no division by the size of a batch of equal timestamps; concretely, in
the 5-event burst preceded by a 500 s gap, the whole gap (25/3 min) is
carried by the first row of the burst and the remaining rows carry 0. -/
theorem C1_no_debatching :
    (∀ (rows : List Row) (ul ud : ℚ),
      List.Chain' (fun a b : ProcRow => b.Gap_Min = ((b.ts : ℚ) - (a.ts : ℚ)) / 60)
        (procesar_celestica rows ul ud)) ∧
    ((procesar_celestica
        [mkRow 0, mkRow 500, mkRow 500, mkRow 500, mkRow 500, mkRow 500] 5 45).map
      fun r => r.Gap_Min) = [0, 25/3, 0, 0, 0, 0] :=
  ⟨fun rows ul ud => procesar_chain_gap rows ul ud,
   of_decide_eq_true (by with_unfolding_all rfl)⟩

/-- C2 counterexample: two events 3600 s apart with `umbral_descanso = 45`
min have a work band (gaps in [1 s, 45 min]) that is empty, yet the
pipeline's estimate is 0 — not the spec's fallback `(last − first) / count`
= 30 min. -/
theorem C2_counterexample :
    ((procesar_celestica [mkRow 0, mkRow 3600] 5 45).filter
        fun r => decide ((1/60 : ℚ) ≤ r.Gap_Min ∧ r.Gap_Min ≤ 45)) = [] ∧
    ct_medio_global (procesar_celestica [mkRow 0, mkRow 3600] 5 45) = 0 ∧
    fallback_estimate_spec (procesar_celestica [mkRow 0, mkRow 3600] 5 45) = 30 ∧
    (0 : ℚ) ≠ 30 :=
  of_decide_eq_true (by with_unfolding_all rfl)

/-- C2 (amended): the pipeline never raises; in the claim's own example
(every gap is 0 s) the estimate is 0, which does coincide with the spec's
fallback `(last − first) / count` there, both being zero. -/
theorem C2_all_zero_gaps :
    ∀ (rows : List Row) (ul ud : ℚ),
      (∀ r ∈ procesar_celestica rows ul ud, r.Gap_Min = 0) →
      ct_medio_global (procesar_celestica rows ul ud) = 0 ∧
        ct_medio_global (procesar_celestica rows ul ud) =
          fallback_estimate_spec (procesar_celestica rows ul ud) := by
  intro rows ul ud hz
  have htt : tiempo_total (procesar_celestica rows ul ud) = 0 := by
    refine List.sum_eq_zero ?_
    intro x hx
    rcases List.mem_map.1 hx with ⟨p, hp, rfl⟩
    have hc := (procesar_cond rows ul ud p hp).2
    rw [hz p hp, ite_self] at hc
    exact hc
  have hct : ct_medio_global (procesar_celestica rows ul ud) = 0 := by
    rw [ct_medio_global, htt]
    split <;> simp
  refine ⟨hct, ?_⟩
  have hfb : fallback_estimate_spec (procesar_celestica rows ul ud) = 0 := by
    rcases hout : procesar_celestica rows ul ud with _ | ⟨g, rest⟩
    · rfl
    · have hchain := procesar_chain_gap rows ul ud
      rw [hout] at hchain
      have hz' : ∀ r ∈ g :: rest, r.Gap_Min = 0 := by
        intro r hr
        refine hz r ?_
        rw [hout]; exact hr
      have hlast := tsConstD rest g hchain hz'
      rw [fallback_estimate_spec, hlast]
      simp
  rw [hct, hfb]

/-- C2 witness: three events sharing one timestamp have all-zero gaps; the
estimate is 0 and equals the spec fallback there. -/
theorem C2_witness :
    ct_medio_global (procesar_celestica [mkRow 7200, mkRow 7200, mkRow 7200] 5 45) = 0 ∧
      ct_medio_global (procesar_celestica [mkRow 7200, mkRow 7200, mkRow 7200] 5 45) =
        fallback_estimate_spec
          (procesar_celestica [mkRow 7200, mkRow 7200, mkRow 7200] 5 45) :=
  C2_all_zero_gaps [mkRow 7200, mkRow 7200, mkRow 7200] 5 45
    (of_decide_eq_true (by with_unfolding_all rfl))

/-- C3: every gap strictly above `umbral_descanso` is marked as a break
(`Nuevo_Bloque = true`) and contributes 0 worked time; in the Scenario 3
dataset (100 events 60 s apart with one 3600 s gap) the global estimate is
49/50 min = 58.8 s, within 2 s of 60 s. -/
theorem C3_idle_excluded :
    (∀ (rows : List Row) (ul ud : ℚ) (r : ProcRow),
        r ∈ procesar_celestica rows ul ud → ud < r.Gap_Min →
        r.Nuevo_Bloque = true ∧ r.Tiempo_Real_Trabajado = 0) ∧
    ct_medio_global (procesar_celestica c3data 5 45) = 49/50 ∧
    (58 : ℚ) ≤ 49/50 * 60 ∧ (49/50 : ℚ) * 60 ≤ 62 := by
  refine ⟨?_, of_decide_eq_true (by with_unfolding_all rfl), by norm_num, by norm_num⟩
  intro rows ul ud r hr hgt
  obtain ⟨hnb, htr⟩ := procesar_cond rows ul ud r hr
  refine ⟨?_, ?_⟩
  · rw [hnb]; exact decide_eq_true hgt
  · rw [htr, if_pos hgt]

/-- C3 witness: the 3600 s gap row of a two-event dataset is marked as a
break and contributes no worked time. -/
theorem C3_witness :
    ({ producto := "P", familia := "F", usuario := "U", ts := 3600, Gap_Min := 60,
       Nuevo_Bloque := true, Bloque_ID := 1, Turno_Virtual := (.noche, 1),
       Tiempo_Real_Trabajado := 0 } : ProcRow).Nuevo_Bloque = true ∧
    ({ producto := "P", familia := "F", usuario := "U", ts := 3600, Gap_Min := 60,
       Nuevo_Bloque := true, Bloque_ID := 1, Turno_Virtual := (.noche, 1),
       Tiempo_Real_Trabajado := 0 } : ProcRow).Tiempo_Real_Trabajado = 0 :=
  C3_idle_excluded.1 [mkRow 0, mkRow 3600] 5 45
    { producto := "P", familia := "F", usuario := "U", ts := 3600, Gap_Min := 60,
      Nuevo_Bloque := true, Bloque_ID := 1, Turno_Virtual := (.noche, 1),
      Tiempo_Real_Trabajado := 0 }
    (by
      rw [show procesar_celestica [mkRow 0, mkRow 3600] 5 45 =
          [{ producto := "P", familia := "F", usuario := "U", ts := 0, Gap_Min := 0,
             Nuevo_Bloque := false, Bloque_ID := 0, Turno_Virtual := (.noche, 0),
             Tiempo_Real_Trabajado := 0 },
           { producto := "P", familia := "F", usuario := "U", ts := 3600, Gap_Min := 60,
             Nuevo_Bloque := true, Bloque_ID := 1, Turno_Virtual := (.noche, 1),
             Tiempo_Real_Trabajado := 0 }] from by with_unfolding_all rfl]
      exact List.mem_cons_of_mem _ (List.mem_singleton_self _))
    (of_decide_eq_true (by with_unfolding_all rfl))

/-- C4 counterexample: the duplicated unit is not deduplicated — both rows
survive (length 2, not 1) and the duplicate contributes a non-zero gap of
2 s (1/30 min). -/
theorem C4_counterexample :
    (procesar_celestica dupData 5 45).length = 2 ∧
    (procesar_celestica dupData 5 45).length ≠ 1 ∧
    ((procesar_celestica dupData 5 45).map fun r => r.Gap_Min) = [0, 1/30] ∧
    (1/30 : ℚ) ≠ 0 :=
  of_decide_eq_true (by with_unfolding_all rfl)

/-- C4 (amended): the column mapper never resolves a unit-id role, and the
pipeline performs no deduplication at all: every row with a parseable
timestamp survives. -/
theorem C4_no_dedup :
    (∀ c : String, roleOf c ≠ some Role.unitId) ∧
    (∀ (rows : List Row) (ul ud : ℚ),
      (procesar_celestica rows ul ud).length =
        (rows.filter fun r => (parseFecha r.fecha).isSome).length) := by
  refine ⟨?_, fun rows ul ud => procesar_length rows ul ud⟩
  intro c h
  unfold roleOf at h
  dsimp only at h
  split_ifs at h <;> simp_all

/-- C4 witness: instance of the no-dedup theorem at a concrete column name
and the duplicated-unit dataset. -/
theorem C4_witness :
    roleOf "Serial Number" ≠ some Role.unitId ∧
    (procesar_celestica dupData 5 45).length =
      (dupData.filter fun r => (parseFecha r.fecha).isSome).length :=
  ⟨C4_no_dedup.1 "Serial Number", C4_no_dedup.2 dupData 5 45⟩

/-- C5 counterexample: the first event is given the defined gap 0
(`fillna(0)`) and is counted in `piezas_totales`; for two events 60 s apart
the estimate is 1/2 min, not the 1 min that excluding the first event from
the gap statistics would give. -/
theorem C5_counterexample :
    ((procesar_celestica [mkRow 0, mkRow 60] 5 45).map fun r => r.Gap_Min) = [0, 1] ∧
    piezas_totales (procesar_celestica [mkRow 0, mkRow 60] 5 45) = 2 ∧
    ct_medio_global (procesar_celestica [mkRow 0, mkRow 60] 5 45) = 1/2 ∧
    (1/2 : ℚ) ≠ 1 :=
  of_decide_eq_true (by with_unfolding_all rfl)

/-- C5 (amended): the first output row's gap is filled with zero rather
than excluded; every gap is non-negative; and every parseable row — the
first included — is counted in `piezas_totales`. -/
theorem C5_first_gap_zero :
    (∀ (rows : List Row) (ul ud : ℚ) (g : ProcRow),
        (procesar_celestica rows ul ud).head? = some g → g.Gap_Min = 0) ∧
    (∀ (rows : List Row) (ul ud : ℚ), ∀ r ∈ procesar_celestica rows ul ud,
        0 ≤ r.Gap_Min) ∧
    (∀ (rows : List Row) (ul ud : ℚ),
        piezas_totales (procesar_celestica rows ul ud) =
          (rows.filter fun r => (parseFecha r.fecha).isSome).length) :=
  ⟨fun rows ul ud g h => procesar_head_gap rows ul ud g h,
   fun rows ul ud => procesar_gap_nonneg rows ul ud,
   fun rows ul ud => procesar_length rows ul ud⟩

/-- C5 witness: instances of the three conjuncts on the two-event dataset. -/
theorem C5_witness :
    ({ producto := "P", familia := "F", usuario := "U", ts := 0, Gap_Min := 0,
       Nuevo_Bloque := false, Bloque_ID := 0, Turno_Virtual := (.noche, 0),
       Tiempo_Real_Trabajado := 0 } : ProcRow).Gap_Min = 0 ∧
    (0 : ℚ) ≤
      ({ producto := "P", familia := "F", usuario := "U", ts := 60, Gap_Min := 1,
         Nuevo_Bloque := false, Bloque_ID := 0, Turno_Virtual := (.noche, 0),
         Tiempo_Real_Trabajado := 1 } : ProcRow).Gap_Min ∧
    piezas_totales (procesar_celestica [mkRow 0, mkRow 60] 5 45) =
      ([mkRow 0, mkRow 60].filter fun r => (parseFecha r.fecha).isSome).length :=
  ⟨C5_first_gap_zero.1 [mkRow 0, mkRow 60] 5 45
      { producto := "P", familia := "F", usuario := "U", ts := 0, Gap_Min := 0,
        Nuevo_Bloque := false, Bloque_ID := 0, Turno_Virtual := (.noche, 0),
        Tiempo_Real_Trabajado := 0 }
      (by with_unfolding_all rfl),
   C5_first_gap_zero.2.1 [mkRow 0, mkRow 60] 5 45
      { producto := "P", familia := "F", usuario := "U", ts := 60, Gap_Min := 1,
        Nuevo_Bloque := false, Bloque_ID := 0, Turno_Virtual := (.noche, 0),
        Tiempo_Real_Trabajado := 1 }
      (by
        rw [show procesar_celestica [mkRow 0, mkRow 60] 5 45 =
            [{ producto := "P", familia := "F", usuario := "U", ts := 0, Gap_Min := 0,
               Nuevo_Bloque := false, Bloque_ID := 0, Turno_Virtual := (.noche, 0),
               Tiempo_Real_Trabajado := 0 },
             { producto := "P", familia := "F", usuario := "U", ts := 60, Gap_Min := 1,
               Nuevo_Bloque := false, Bloque_ID := 0, Turno_Virtual := (.noche, 0),
               Tiempo_Real_Trabajado := 1 }] from by with_unfolding_all rfl]
        exact List.mem_cons_of_mem _ (List.mem_singleton_self _)),
   C5_first_gap_zero.2.2 [mkRow 0, mkRow 60] 5 45⟩

/-- C6 counterexample: for two events at the same timestamp the estimate is
0 and `capacidad` is set to 0 directly — there is no clamp to the spec's
example epsilon (0.01 s = 1/6000 min), which would instead give
`8·60 / (1/6000) · 0.85 = 2448000 ≠ 0`. -/
theorem C6_counterexample :
    ct_medio_global (procesar_celestica [mkRow 0, mkRow 0] 5 45) = 0 ∧
    capacidad (procesar_celestica [mkRow 0, mkRow 0] 5 45) 8 (17/20) = 0 ∧
    (8 * 60 / ((1/6000 : ℚ)) * (17/20)) = 2448000 ∧
    (2448000 : ℚ) ≠ 0 :=
  ⟨by with_unfolding_all rfl, by with_unfolding_all rfl, by norm_num, by norm_num⟩

/-- C6 (amended): there is no epsilon clamp; instead the guard
`if ct_medio_global > 0` sends every non-positive estimate to capacity 0,
so `capacidad` is always a well-defined, non-negative rational. -/
theorem C6_no_epsilon_clamp :
    ∀ (rows : List Row) (ul ud h_turno eficiencia : ℚ),
      0 ≤ h_turno → 0 ≤ eficiencia →
      0 ≤ capacidad (procesar_celestica rows ul ud) h_turno eficiencia ∧
        (0 < ct_medio_global (procesar_celestica rows ul ud) ∨
          capacidad (procesar_celestica rows ul ud) h_turno eficiencia = 0) := by
  intro rows ul ud ht he hh heff
  by_cases hct : 0 < ct_medio_global (procesar_celestica rows ul ud)
  · refine ⟨?_, Or.inl hct⟩
    rw [capacidad, if_pos hct]
    exact mul_nonneg (div_nonneg (mul_nonneg hh (by norm_num)) hct.le) heff
  · rw [capacidad, if_neg hct]
    exact ⟨le_refl 0, Or.inr rfl⟩

/-- C6 witness: instance of the no-clamp theorem at a concrete dataset and
the sidebar defaults (8 h shift, 85 % efficiency). -/
theorem C6_witness :
    0 ≤ capacidad (procesar_celestica [mkRow 0, mkRow 60] 5 45) 8 (17/20) ∧
      (0 < ct_medio_global (procesar_celestica [mkRow 0, mkRow 60] 5 45) ∨
        capacidad (procesar_celestica [mkRow 0, mkRow 60] 5 45) 8 (17/20) = 0) :=
  C6_no_epsilon_clamp [mkRow 0, mkRow 60] 5 45 8 (17/20) (by norm_num) (by norm_num)

/-- C7 counterexample: with a single parseable timestamp the module still
renders a KPI result (`piezas = 1`, `ct = 0`, `capacidad = 0`) — no
zero-usable-rows warning exists and a rate estimate is produced. -/
theorem C7_counterexample :
    runApp (some [mkRow 0]) true 5 45 8 (17/20) = .success 1 0 0 ∧
    (Outcome.success 1 0 0).isSuccess = true :=
  of_decide_eq_true (by with_unfolding_all rfl)

/-- C7 (amended): whenever exactly one row has a parseable timestamp, the
pipeline neither crashes nor warns: it renders a success outcome with
`piezas = 1`, `ct_medio_global = 0` and `capacidad = 0`. -/
theorem C7_single_row_success :
    ∀ (rows : List Row) (ul ud h_turno eficiencia : ℚ),
      (rows.filter fun r => (parseFecha r.fecha).isSome).length = 1 →
      runApp (some rows) true ul ud h_turno eficiencia = .success 1 0 0 := by
  intro rows ul ud ht he hcount
  have hp : piezas_totales (procesar_celestica rows ul ud) = 1 :=
    (procesar_length rows ul ud).trans hcount
  obtain ⟨g, hg⟩ := List.length_eq_one.1 hp
  have hg0 : g.Gap_Min = 0 := procesar_head_gap rows ul ud g (by rw [hg]; rfl)
  have htr : g.Tiempo_Real_Trabajado = 0 := by
    have hc := (procesar_cond rows ul ud g (by rw [hg]; exact List.mem_singleton_self g)).2
    rw [hg0, ite_self] at hc
    exact hc
  have htt : tiempo_total (procesar_celestica rows ul ud) = 0 := by
    rw [tiempo_total, hg]
    simp [htr]
  have hct : ct_medio_global (procesar_celestica rows ul ud) = 0 := by
    rw [ct_medio_global, htt, hp]
    norm_num
  have hcap : capacidad (procesar_celestica rows ul ud) ht he = 0 := by
    rw [capacidad, hct]
    norm_num
  simp [runApp, hp, hct, hcap]

/-- C7 witness: instance at a concrete one-row upload. -/
theorem C7_witness :
    runApp (some [mkRow 7200]) true 5 45 8 (17/20) = .success 1 0 0 :=
  C7_single_row_success [mkRow 7200] 5 45 8 (17/20)
    (of_decide_eq_true (by with_unfolding_all rfl))

/-- C8: for every input dataset the output is ascending in timestamp and
every computed gap is non-negative. -/
theorem C8_sorted_output :
    ∀ (rows : List Row) (ul ud : ℚ),
      List.Chain' (fun a b : ProcRow => a.ts ≤ b.ts) (procesar_celestica rows ul ud) ∧
      ∀ r ∈ procesar_celestica rows ul ud, 0 ≤ r.Gap_Min :=
  fun rows ul ud => ⟨procesar_ts_chain rows ul ud, procesar_gap_nonneg rows ul ud⟩

/-- C8 witness: instance of the gap-non-negativity conjunct on a concrete
dataset and row. -/
theorem C8_witness :
    (0 : ℚ) ≤
      ({ producto := "P", familia := "F", usuario := "U", ts := 60, Gap_Min := 1,
         Nuevo_Bloque := false, Bloque_ID := 0, Turno_Virtual := (.noche, 0),
         Tiempo_Real_Trabajado := 1 } : ProcRow).Gap_Min :=
  (C8_sorted_output [mkRow 0, mkRow 60] 5 45).2
    { producto := "P", familia := "F", usuario := "U", ts := 60, Gap_Min := 1,
      Nuevo_Bloque := false, Bloque_ID := 0, Turno_Virtual := (.noche, 0),
      Tiempo_Real_Trabajado := 1 }
    (by
      rw [show procesar_celestica [mkRow 0, mkRow 60] 5 45 =
          [{ producto := "P", familia := "F", usuario := "U", ts := 0, Gap_Min := 0,
             Nuevo_Bloque := false, Bloque_ID := 0, Turno_Virtual := (.noche, 0),
             Tiempo_Real_Trabajado := 0 },
           { producto := "P", familia := "F", usuario := "U", ts := 60, Gap_Min := 1,
             Nuevo_Bloque := false, Bloque_ID := 0, Turno_Virtual := (.noche, 0),
             Tiempo_Real_Trabajado := 1 }] from by with_unfolding_all rfl]
      exact List.mem_cons_of_mem _ (List.mem_singleton_self _))

/-- C9 counterexample: the caller's frame is mutated by the call — a raw
timestamp cell has been overwritten with its coerced value. -/
theorem C9_counterexample :
    (procesar_celestica_full
        [{ producto := "P", familia := "F", fecha := .raw 5, usuario := "U" }] 5 45).1 =
      [{ producto := "P", familia := "F", fecha := .parsed (some 5), usuario := "U" }] ∧
    (procesar_celestica_full
        [{ producto := "P", familia := "F", fecha := .raw 5, usuario := "U" }] 5 45).1 ≠
      [{ producto := "P", familia := "F", fecha := .raw 5, usuario := "U" }] :=
  of_decide_eq_true (by with_unfolding_all rfl)

/-- C9 (amended): the only mutation of the caller-owned frame is the
in-place coercion of the timestamp column; row count, order and all other
columns are untouched, and no derived column is added to it. -/
theorem C9_mutation_only_fecha :
    ∀ (rows : List Row) (ul ud : ℚ),
      List.Forall₂
        (fun a b : Row => a.producto = b.producto ∧ a.familia = b.familia ∧
          a.usuario = b.usuario ∧ b.fecha = .parsed (parseFecha a.fecha))
        rows (procesar_celestica_full rows ul ud).1 := by
  intro rows ul ud
  show List.Forall₂ _ rows (coerceFechas rows)
  rw [coerceFechas]
  refine List.forall₂_map_right_iff.2 ?_
  refine List.forall₂_same.2 ?_
  intro a _
  exact ⟨rfl, rfl, rfl, rfl⟩

/-- C10: `umbral_lote` is dead — the engine output and every derived KPI
(global estimate, capacity, per-family/per-product statistics) are
identical for any two values of the parameter. -/
theorem C10_umbral_lote_dead :
    ∀ (rows : List Row) (ul₁ ul₂ ud h_turno eficiencia : ℚ),
      procesar_celestica rows ul₁ ud = procesar_celestica rows ul₂ ud ∧
      ct_medio_global (procesar_celestica rows ul₁ ud) =
        ct_medio_global (procesar_celestica rows ul₂ ud) ∧
      capacidad (procesar_celestica rows ul₁ ud) h_turno eficiencia =
        capacidad (procesar_celestica rows ul₂ ud) h_turno eficiencia ∧
      groupStats (procesar_celestica rows ul₁ ud) =
        groupStats (procesar_celestica rows ul₂ ud) :=
  fun _ _ _ _ _ _ => ⟨rfl, rfl, rfl, rfl⟩
